import Mathlib

/-!
Verification development for a Keystone CMS repository consisting of
example list configurations, Media validation and resolve-input hooks, a
generated relational schema, and access-control integration tests.
The declarative configurations and hook bodies are embedded from the
sources; the external framework behaviour they rely on (filter merging,
mutation abort on validation errors, nested relationship-operation
application) is modelled from the specification where stated.
-/

namespace Keystone

/-! ## Relationship configuration (access-control test lists) -/

/-- A `relationship(...)` field configuration: the two-sided reference and
the `many` flag, as written in the list config. -/
structure RelationshipConfig where
  ref : String
  many : Bool
deriving DecidableEq, Repr

/-- The `posts` field of the `UserToPostLimitedRead` list:
`relationship(\x7b ref: PostLimitedRead.author, many: true \x7d)`. -/
def UserToPostLimitedRead.posts : RelationshipConfig :=
  { ref := "PostLimitedRead.author", many := true }

/-- The `author` field of the `PostLimitedRead` list:
`relationship(\x7b ref: UserToPostLimitedRead.posts, many: false \x7d)`. -/
def PostLimitedRead.author : RelationshipConfig :=
  { ref := "UserToPostLimitedRead.posts", many := false }

/-- A two-sided relationship is many-to-many exactly when both sides are
declared with `many: true`. -/
def isManyToMany (a b : RelationshipConfig) : Bool :=
  a.many && b.many

/-- A two-sided relationship is one-to-many when the collection side is
declared `many: true` and the other side `many: false`. -/
def isOneToMany (collectionSide singleSide : RelationshipConfig) : Bool :=
  collectionSide.many && !singleSide.many

/-! ## Generated relational schema: datasource block and models -/

/-- A value in a prisma datasource block: either a reference to an
environment variable via `env("NAME")`, or a literal string. -/
inductive DatasourceValue where
  | env (name : String)
  | lit (s : String)
deriving DecidableEq, Repr

/-- The datasource block of the generated schema, embedded setting by
setting from `tests/sandbox/schema.prisma`. -/
def datasourceBlock : List (String × DatasourceValue) :=
  [ ("url", DatasourceValue.env "DATABASE_URL"),
    ("shadowDatabaseUrl", DatasourceValue.env "SHADOW_DATABASE_URL"),
    ("provider", DatasourceValue.lit "postgresql") ]

/-- The environment variables read by the datasource block, in order. -/
def envVarsRead : List String :=
  datasourceBlock.filterMap fun e =>
    match e.2 with
    | DatasourceValue.env n => some n
    | DatasourceValue.lit _ => none

/-- Model names declared in `tests/sandbox/schema.prisma`. -/
def sandboxPrismaModels : List String :=
  ["Thing", "Todo", "User", "Settings"]

/-- List names declared in the Media example schema (`src/unnamed/part_001`). -/
def mediaExampleLists : List String :=
  ["Post", "Link", "Media"]

/-- List names declared in `examples/custom-session-redis/schema.ts`. -/
def customSessionLists : List String :=
  ["User"]

/-- Every list or model name declared across the configuration and
generated schema files of the repository. -/
def allDeclaredNames : List String :=
  customSessionLists ++ mediaExampleLists ++ sandboxPrismaModels

/-! ## Access-control filtering scenario (access-control.test.ts) -/

/-- A row of the `PostLimitedRead` list as created by the tests: an id, the
`name` and `content` text fields, and the to-one `author` reference. -/
structure PostRow where
  id : Nat
  name : String
  content : String
  authorId : Option Nat
deriving DecidableEq, Repr

/-- A row of the `UserToPostLimitedRead` list: an id, the `username` text
field, and the ids of the connected `posts`. -/
structure UserRow where
  id : Nat
  username : String
  posts : List Nat
deriving DecidableEq, Repr

/-- The post names used by the tests. -/
def postNames : List String :=
  ["Post 1", "Post 2", "Post 3"]

/-- The query access filter of the `PostLimitedRead` list:
`name in [postNames[1]]`, limiting read access to the second post only. -/
def postLimitedReadQueryFilter (p : PostRow) : Bool :=
  [postNames.getD 1 ""].contains p.name

/-- The query access filter of the `UserToPostLimitedRead` list:
`username not equals bad`. -/
def userQueryFilter (u : UserRow) : Bool :=
  u.username != "bad"

/-- Modelled from the spec: the external framework (not in this repository)
merges the per-operation access filter with any caller-supplied query
filter, AND-ing an explicit where clause against the implicit access
filter; a related post is returned iff it is connected to the user, passes
the query access filter, and passes the explicit where clause. -/
def relatedPosts (db : List PostRow) (u : UserRow) (explicitWhere : PostRow → Bool) :
    List PostRow :=
  db.filter fun p => u.posts.contains p.id && postLimitedReadQueryFilter p && explicitWhere p

/-- Modelled from the spec: the external framework resolves a to-one
back-reference by looking up the referenced row, restricted by that list
query access filter. -/
def resolveAuthor (users : List UserRow) (p : PostRow) : Option UserRow :=
  match p.authorId with
  | none => none
  | some a => users.find? fun u => u.id == a && userQueryFilter u

/-- The three posts created by the tests (ids 0, 1, 2 standing for
postIds[0..2]), with arbitrary random content; posts 1 and 2 are connected
to the user (id 10), so their author reference points at the user. -/
def testPosts (c0 c1 c2 : String) : List PostRow :=
  [ { id := 0, name := "Post 1", content := c0, authorId := none },
    { id := 1, name := "Post 2", content := c1, authorId := some 10 },
    { id := 2, name := "Post 3", content := c2, authorId := some 10 } ]

/-- The user created by the tests, connected to posts 1 and 2. -/
def testUser (un : String) : UserRow :=
  { id := 10, username := un, posts := [1, 2] }

/-- The explicit where clause of the second test: `id in [postIds[2]]`,
knowingly selecting a post the access filter excludes. -/
def whereIdInPost2 (p : PostRow) : Bool :=
  [2].contains p.id

/-- C1. With the explicit where clause `id in [postIds[2]]`, the framework
ANDs the clause with the implicit access filter `name in [Post 2]`, so the
returned posts list is empty. -/
theorem explicit_where_anded_with_access_filter (c0 c1 c2 un : String) :
    relatedPosts (testPosts c0 c1 c2) (testUser un) whereIdInPost2 = [] := by
  rfl

/-- C2. With no explicit where clause, the access filter alone restricts
the result: the query returns exactly the post named Post 2 (postIds[1]),
and that post author back-reference resolves to the user. -/
theorem implicit_access_filter_restricts (c0 c1 c2 un : String)
    (h : un ≠ "bad") :
    relatedPosts (testPosts c0 c1 c2) (testUser un) (fun _ => true)
        = [{ id := 1, name := "Post 2", content := c1, authorId := some 10 }]
      ∧ resolveAuthor [testUser un]
          { id := 1, name := "Post 2", content := c1, authorId := some 10 }
          = some (testUser un) := by
  constructor
  · rfl
  · have hb : (un == "bad") = false := beq_eq_false_iff_ne.mpr h
    simp [resolveAuthor, testUser, userQueryFilter, List.find?, bne, hb]

/-- C2 witness: the theorem instantiated at concrete content strings and a
concrete username. -/
theorem implicit_access_filter_restricts_witness :
    ("alice" ≠ "bad")
      ∧ (relatedPosts (testPosts "ca" "cb" "cc") (testUser "alice") (fun _ => true)
            = [{ id := 1, name := "Post 2", content := "cb", authorId := some 10 }]
          ∧ resolveAuthor [testUser "alice"]
              { id := 1, name := "Post 2", content := "cb", authorId := some 10 }
              = some (testUser "alice")) :=
  ⟨by decide, implicit_access_filter_restricts "ca" "cb" "cc" "alice" (by decide)⟩

/-- C4. The claim states the relationship between `UserToPostLimitedRead.posts`
and `PostLimitedRead.author` is many-to-many; the `author` side is declared
`many: false`, so it is not. -/
theorem posts_author_not_many_to_many :
    isManyToMany UserToPostLimitedRead.posts PostLimitedRead.author = false := by
  decide

/-- C4 (amended). The relationship between `UserToPostLimitedRead.posts`
(`many: true`) and `PostLimitedRead.author` (`many: false`) is one-to-many:
a user has many posts, each post has a single author. -/
theorem posts_author_one_to_many :
    isOneToMany UserToPostLimitedRead.posts PostLimitedRead.author = true
      ∧ PostLimitedRead.author.many = false := by
  decide

/-- C6. The datasource block reads exactly the two environment variables
DATABASE_URL (as the database url) and SHADOW_DATABASE_URL (as the shadow
database url). -/
theorem datasource_env_vars :
    envVarsRead = ["DATABASE_URL", "SHADOW_DATABASE_URL"]
      ∧ datasourceBlock.lookup "url" = some (DatasourceValue.env "DATABASE_URL")
      ∧ datasourceBlock.lookup "shadowDatabaseUrl"
          = some (DatasourceValue.env "SHADOW_DATABASE_URL") := by
  decide

/-- C7. The declarative data model across the configuration and generated
schema files contains an instance named User, Post, Link, Media, Thing,
Todo, and Settings. -/
theorem all_seven_names_declared :
    "User" ∈ allDeclaredNames ∧ "Post" ∈ allDeclaredNames
      ∧ "Link" ∈ allDeclaredNames ∧ "Media" ∈ allDeclaredNames
      ∧ "Thing" ∈ allDeclaredNames ∧ "Todo" ∈ allDeclaredNames
      ∧ "Settings" ∈ allDeclaredNames := by
  decide

/-! ## Media list: virtual label field and hooks (src/unnamed/part_001) -/

/-- A nested relationship operation carried by the `post` or `link` key of
a Media mutation input. The external framework GraphQL layer accepts at
most one operation per to-one relationship input, so a present value is a
connect, a create, or a disconnect; `none` is an absent key. The payload
of connect and create is the id of the (existing or new) target item. -/
inductive RelOp where
  | none
  | connect (id : Nat)
  | create (id : Nat)
  | disconnect
deriving DecidableEq, Repr

/-- The JS test `x?.connect ?? x?.create` used by the validate hooks: the
value counts when it carries a connect or a create operation. -/
def RelOp.hasConnectOrCreate : RelOp → Bool
  | RelOp.connect _ => true
  | RelOp.create _ => true
  | _ => false

/-- The JS test `x?.disconnect`. -/
def RelOp.isDisconnect : RelOp → Bool
  | RelOp.disconnect => true
  | _ => false

/-- The JS truthiness test `!value` used by the resolveInput hook: a value
is present when the key is not absent. -/
def RelOp.isPresent : RelOp → Bool
  | RelOp.none => false
  | _ => true

/-- The Media create validate hook: with `values` the media type
relationships carrying a connect or create, it adds (and returns on) the
error `A media type relationship is required` when there are none, and
`Only one media type relationship can be selected` when there are more
than one. -/
def validateCreate (post link : RelOp) : List String :=
  let values := [post, link].filter RelOp.hasConnectOrCreate
  if values.length == 0 then ["A media type relationship is required"]
  else if values.length > 1 then ["Only one media type relationship can be selected"]
  else []

/-- The Media update validate hook: it first adds (and returns on) the
error `Cannot change media type relationship type` when post or link
carries a disconnect, then `Only one media type relationship can be
selected` when more than one carries a connect or create. -/
def validateUpdate (post link : RelOp) : List String :=
  if [post, link].any RelOp.isDisconnect then
    ["Cannot change media type relationship type"]
  else
    let values := [post, link].filter RelOp.hasConnectOrCreate
    if values.length > 1 then ["Only one media type relationship can be selected"]
    else []

/-- The resolved update data of a Media item: the `post` and `link` keys
and the remaining keys (`rest` in the hook body), kept abstract as one
string payload. -/
structure UpdateData where
  post : RelOp
  link : RelOp
  rest : String
deriving DecidableEq, Repr

/-- The Media resolveInput update hook: it walks the entries post, link in
order; an absent value or a disconnect is skipped; the first remaining
value is applied on top of a disconnect of both relationships, the rest of
the data preserved; if the loop finds nothing, post and link are stripped
and only the rest is returned. -/
def resolveInputUpdate (d : UpdateData) : UpdateData :=
  if d.post.isPresent && !d.post.isDisconnect then
    { post := d.post, link := RelOp.disconnect, rest := d.rest }
  else if d.link.isPresent && !d.link.isDisconnect then
    { post := RelOp.disconnect, link := d.link, rest := d.rest }
  else
    { post := RelOp.none, link := RelOp.none, rest := d.rest }

/-- The persisted relationship references of a Media item. -/
structure MediaRefs where
  postId : Option Nat
  linkId : Option Nat
deriving DecidableEq, Repr

/-- Modelled from the spec: the external framework applies a resolved
nested relationship operation to the stored reference; an absent key
leaves it unchanged, connect and create set it, disconnect clears it. -/
def applyOp (cur : Option Nat) : RelOp → Option Nat
  | RelOp.none => cur
  | RelOp.connect i => some i
  | RelOp.create i => some i
  | RelOp.disconnect => Option.none

/-- Modelled from the spec: applying resolved update data to a stored
Media item updates both relationship references. -/
def applyUpdate (m : MediaRefs) (d : UpdateData) : MediaRefs :=
  { postId := applyOp m.postId d.post, linkId := applyOp m.linkId d.link }

/-- The target id of a connect or create operation. -/
def RelOp.target : RelOp → Option Nat
  | RelOp.connect i => some i
  | RelOp.create i => some i
  | _ => Option.none

/-- Modelled from the spec: `addValidationError` aborts the mutation and
surfaces a structured GraphQL error, so a create whose validate hook
added errors creates no item and fails with those errors; otherwise the
item is created from the input operations. -/
inductive CreateOutcome where
  | created (refs : MediaRefs)
  | failed (messages : List String)
deriving DecidableEq, Repr

/-- Modelled from the spec: running a Media create mutation first runs the
create validate hook, aborting with its errors when any were added. -/
def runCreateMedia (post link : RelOp) : CreateOutcome :=
  let errs := validateCreate post link
  if errs.isEmpty then
    CreateOutcome.created { postId := post.target, linkId := link.target }
  else CreateOutcome.failed errs

/-- C3. A Media create whose input supplies neither a post nor a link
carrying a connect or create operation fails with the validation error
`A media type relationship is required`, and no item is created. -/
theorem create_requires_media_type (post link : RelOp)
    (hp : post.hasConnectOrCreate = false) (hl : link.hasConnectOrCreate = false) :
    validateCreate post link = ["A media type relationship is required"]
      ∧ runCreateMedia post link
          = CreateOutcome.failed ["A media type relationship is required"] := by
  have hv : validateCreate post link = ["A media type relationship is required"] := by
    cases post <;> cases link <;> simp_all [validateCreate, RelOp.hasConnectOrCreate]
  exact ⟨hv, by simp [runCreateMedia, hv]⟩

/-- C3 witness: the theorem instantiated at an input carrying neither
relationship. -/
theorem create_requires_media_type_witness :
    (RelOp.none.hasConnectOrCreate = false ∧ RelOp.none.hasConnectOrCreate = false)
      ∧ (validateCreate RelOp.none RelOp.none
            = ["A media type relationship is required"]
          ∧ runCreateMedia RelOp.none RelOp.none
              = CreateOutcome.failed ["A media type relationship is required"]) :=
  ⟨⟨by decide, by decide⟩, create_requires_media_type RelOp.none RelOp.none (by decide) (by decide)⟩

/-- C8. The update validate hook rejects any input where post or link
carries a disconnect with `Cannot change media type relationship type`;
rejects any (disconnect-free) input where both carry a connect or create
with `Only one media type relationship can be selected`; and passes every
input that touches at most one relationship and carries no disconnect. -/
theorem update_validate_hook_cases (post link : RelOp) :
    ((post.isDisconnect || link.isDisconnect) = true
        → validateUpdate post link = ["Cannot change media type relationship type"])
      ∧ (post.hasConnectOrCreate = true → link.hasConnectOrCreate = true
          → validateUpdate post link
              = ["Only one media type relationship can be selected"])
      ∧ (post.isDisconnect = false → link.isDisconnect = false
          → ¬(post.hasConnectOrCreate = true ∧ link.hasConnectOrCreate = true)
          → validateUpdate post link = []) := by
  refine ⟨?_, ?_, ?_⟩ <;>
    cases post <;> cases link <;>
    simp_all [validateUpdate, RelOp.isDisconnect, RelOp.hasConnectOrCreate]

/-- C8 witness: the three cases of the theorem instantiated at concrete
inputs, one per case. -/
theorem update_validate_hook_cases_witness :
    validateUpdate RelOp.disconnect RelOp.none
        = ["Cannot change media type relationship type"]
      ∧ validateUpdate (RelOp.connect 0) (RelOp.create 1)
          = ["Only one media type relationship can be selected"]
      ∧ validateUpdate (RelOp.connect 0) RelOp.none = [] :=
  ⟨(update_validate_hook_cases RelOp.disconnect RelOp.none).1 (by decide),
   (update_validate_hook_cases (RelOp.connect 0) (RelOp.create 1)).2.1 (by decide) (by decide),
   (update_validate_hook_cases (RelOp.connect 0) RelOp.none).2.2 (by decide) (by decide)
     (by decide)⟩

/-- C9. The resolveInput update hook keeps a Media item referencing at
most one of post or link: when exactly one of the two keys carries a
connect or create, the returned data disconnects both relationships and
applies only the given one, so the updated item references only its
target; when neither does, the returned data strips post and link and the
stored references are unchanged. -/
theorem resolve_input_update_invariant (d : UpdateData) (m : MediaRefs) :
    (d.post.hasConnectOrCreate = true → d.link.hasConnectOrCreate = false
        → resolveInputUpdate d
            = { post := d.post, link := RelOp.disconnect, rest := d.rest }
          ∧ applyUpdate m (resolveInputUpdate d)
              = { postId := d.post.target, linkId := Option.none })
      ∧ (d.post.hasConnectOrCreate = false → d.link.hasConnectOrCreate = true
          → resolveInputUpdate d
              = { post := RelOp.disconnect, link := d.link, rest := d.rest }
            ∧ applyUpdate m (resolveInputUpdate d)
                = { postId := Option.none, linkId := d.link.target })
      ∧ (d.post.hasConnectOrCreate = false → d.link.hasConnectOrCreate = false
          → resolveInputUpdate d
              = { post := RelOp.none, link := RelOp.none, rest := d.rest }
            ∧ applyUpdate m (resolveInputUpdate d) = m) := by
  obtain ⟨p, l, r⟩ := d
  refine ⟨?_, ?_, ?_⟩ <;>
    cases p <;> cases l <;>
    simp_all [resolveInputUpdate, applyUpdate, applyOp, RelOp.hasConnectOrCreate,
      RelOp.isPresent, RelOp.isDisconnect, RelOp.target]

/-- C9 witness: the theorem instantiated at an update connecting a link on
an item that referenced a post. -/
theorem resolve_input_update_invariant_witness :
    ((RelOp.none : RelOp).hasConnectOrCreate = false
        ∧ (RelOp.connect 7).hasConnectOrCreate = true)
      ∧ (resolveInputUpdate { post := RelOp.none, link := RelOp.connect 7, rest := "r" }
            = { post := RelOp.disconnect, link := RelOp.connect 7, rest := "r" }
          ∧ applyUpdate { postId := some 3, linkId := Option.none }
              (resolveInputUpdate { post := RelOp.none, link := RelOp.connect 7, rest := "r" })
              = { postId := Option.none, linkId := some 7 }) :=
  ⟨⟨by decide, by decide⟩,
   (resolve_input_update_invariant
       { post := RelOp.none, link := RelOp.connect 7, rest := "r" }
       { postId := some 3, linkId := Option.none }).2.1 (by decide) (by decide)⟩

/-! ## Media virtual label field -/

/-- Looks up the title of the item with the given id in a title table,
standing for `context.db.Post.findOne` / `context.db.Link.findOne`
followed by `.title`. -/
def findTitle (db : List (Nat × String)) (i : Nat) : Option String :=
  (db.find? fun r => r.1 == i).map fun r => r.2

/-- The resolve function of the Media virtual `label` field: when postId
is set it returns the referenced Post title, or `[missing]` when that Post
is not found; otherwise when linkId is set it returns the referenced Link
title, or `[missing]`; otherwise `?`. -/
def resolveLabel (posts links : List (Nat × String)) (postId linkId : Option Nat) :
    String :=
  match postId with
  | some pid => (findTitle posts pid).getD "[missing]"
  | Option.none =>
    match linkId with
    | some lid => (findTitle links lid).getD "[missing]"
    | Option.none => "?"

/-- C5. The label of a Media item resolves to the title of the Post
referenced by postId when postId is set (or `[missing]` when that Post is
not found), otherwise to the title of the Link referenced by linkId (or
`[missing]`), otherwise to `?`; the Post branch does not consult linkId,
so the Post takes precedence when both are set. -/
theorem virtual_label_resolution (posts links : List (Nat × String))
    (postId linkId : Option Nat) :
    (∀ pid t, postId = some pid → findTitle posts pid = some t
        → resolveLabel posts links postId linkId = t)
      ∧ (∀ pid, postId = some pid → findTitle posts pid = Option.none
          → resolveLabel posts links postId linkId = "[missing]")
      ∧ (∀ lid t, postId = Option.none → linkId = some lid
          → findTitle links lid = some t
          → resolveLabel posts links postId linkId = t)
      ∧ (∀ lid, postId = Option.none → linkId = some lid
          → findTitle links lid = Option.none
          → resolveLabel posts links postId linkId = "[missing]")
      ∧ (postId = Option.none → linkId = Option.none
          → resolveLabel posts links postId linkId = "?") := by
  refine ⟨?_, ?_, ?_, ?_, ?_⟩ <;> intros <;> subst_vars <;>
    simp_all [resolveLabel]

/-- C5 witness: the theorem instantiated at an item whose postId and
linkId are both set, resolving to the Post title. -/
theorem virtual_label_resolution_witness :
    ((some 1 : Option Nat) = some 1
        ∧ findTitle [(1, "T1")] 1 = some "T1")
      ∧ resolveLabel [(1, "T1")] [(2, "L2")] (some 1) (some 2) = "T1" :=
  ⟨⟨by decide, by decide⟩,
   (virtual_label_resolution [(1, "T1")] [(2, "L2")] (some 1) (some 2)).1 1 "T1"
     (by decide) (by decide)⟩

/-! ## Custom-session example: User access (examples/custom-session-redis) -/

/-- A session as declared in the example: the list key, the authenticated
item id, and the `data.something` payload. -/
structure Session where
  listKey : String
  itemId : String
  something : String
deriving DecidableEq, Repr

/-- The `hasSession` access function: `Boolean(session)`. -/
def hasSession (s : Option Session) : Bool :=
  s.isSome

/-- The result of a filter access function: denial (`false`), the allow-all
filter of the `unfiltered` helper, or the filter `id equals the given id`. -/
inductive AccessFilterResult where
  | deny
  | allow
  | idEquals (i : String)
deriving DecidableEq, Repr

/-- The `isSameUserFilter` access function: without a session it returns
`false`; with one it returns the filter `id equals session.itemId`. -/
def isSameUserFilter (s : Option Session) : AccessFilterResult :=
  match s with
  | Option.none => AccessFilterResult.deny
  | some sess => AccessFilterResult.idEquals sess.itemId

/-- The `unfiltered` helper imported by the example: it allows every row
regardless of the session. -/
def unfiltered (_ : Option Session) : AccessFilterResult :=
  AccessFilterResult.allow

/-- Modelled from the spec: the external framework evaluates a filter
access result on a row; denial excludes every row, allow keeps every row,
and an id filter keeps the row whose id matches. -/
def filterAllows : AccessFilterResult → String → Bool
  | AccessFilterResult.deny, _ => false
  | AccessFilterResult.allow, _ => true
  | AccessFilterResult.idEquals i, rid => rid == i

/-- The operation access of the User list: `operation: hasSession` applies
`hasSession` to every operation. -/
def userOperationAccess (s : Option Session) : Bool :=
  hasSession s

/-- Modelled from the spec: a row is visible to a query when the operation
access allows it and the row passes the query filter (`unfiltered`). -/
def canQueryRow (s : Option Session) (rid : String) : Bool :=
  userOperationAccess s && filterAllows (unfiltered s) rid

/-- Modelled from the spec: a row is mutable by an update when the
operation access allows it and the row passes the update filter
(`isSameUserFilter`). -/
def canUpdateRow (s : Option Session) (rid : String) : Bool :=
  userOperationAccess s && filterAllows (isSameUserFilter s) rid

/-- Modelled from the spec: a row is deletable when the operation access
allows it and the row passes the delete filter (`isSameUserFilter`). -/
def canDeleteRow (s : Option Session) (rid : String) : Bool :=
  userOperationAccess s && filterAllows (isSameUserFilter s) rid

/-- C10. Without a session, `hasSession` is false and every User operation
is denied, and `isSameUserFilter` returns false; with a session,
`isSameUserFilter` returns the filter `id equals session.itemId`, so
update and delete reach exactly the row whose id equals the authenticated
item id, while query keeps every row. -/
theorem custom_session_user_access :
    userOperationAccess Option.none = false
      ∧ isSameUserFilter Option.none = AccessFilterResult.deny
      ∧ (∀ rid, canQueryRow Option.none rid = false
          ∧ canUpdateRow Option.none rid = false
          ∧ canDeleteRow Option.none rid = false)
      ∧ (∀ sess : Session,
          isSameUserFilter (some sess) = AccessFilterResult.idEquals sess.itemId)
      ∧ (∀ (sess : Session) (rid : String),
          canUpdateRow (some sess) rid = (rid == sess.itemId)
            ∧ canDeleteRow (some sess) rid = (rid == sess.itemId)
            ∧ canQueryRow (some sess) rid = true) := by
  refine ⟨rfl, rfl, fun rid => ⟨rfl, rfl, rfl⟩, fun sess => rfl, fun sess rid => ⟨?_, ?_, rfl⟩⟩ <;>
    simp [canUpdateRow, canDeleteRow, userOperationAccess, hasSession,
      isSameUserFilter, filterAllows]

end Keystone
